import Mathlib

/-!
Verification of the civic-complaint intake pipeline and priority-ranking
engine (backend of the CivicIQ complaint API).

Shallow embedding conventions:
* Python floats used for scores and timestamps are modelled as `ℚ`
  (timestamps are absolute UTC instants measured in seconds, so the
  "naive timestamps are treated as UTC" normalisation is absorbed by
  the model); embedding vectors, whose maths involves `sqrt`, are
  modelled over `ℝ`.
* Python dict rows are Lean structures; `dict.get(k, d)` on an optional
  field is `Option.getD`.
* A raised `HTTPException` is an `Except` error carrying the status code.
* The external collaborators (Gemini, Supabase) are modelled by explicit
  outcome parameters: the AI analysis outcome, the embedding outcome and
  the success of secondary inserts are inputs of the pipeline functions;
  the data store is an explicit `DB` state threaded through them.
-/

/-! ## Priority scorer — `backend/ai/priority.py` -/

/-- `SEVERITY_WEIGHTS` dict: Low=1.0, Medium=5.0, High=10.0. -/
def SEVERITY_WEIGHTS (s : String) : Option ℚ :=
  if s = "Low" then some 1
  else if s = "Medium" then some 5
  else if s = "High" then some 10
  else none

def VOTE_MULTIPLIER : ℚ := 2

def DUPLICATE_MULTIPLIER : ℚ := 3/2

def TIME_DECAY_PER_DAY : ℚ := 1/2

def TIME_DECAY_CAP : ℚ := 20

/-- Python's `round(x, 2)`: round to two decimal places. -/
def round2 (q : ℚ) : ℚ := (round (q * 100) : ℤ) / 100

/-- `compute_priority_score` from `backend/ai/priority.py`.
`created_at` and `now` are UTC instants in seconds (the source accepts an
ISO string or a datetime and normalises both to an aware UTC datetime;
the model works directly with the normalised instant).  `days_old` is the
elapsed seconds divided by 86400. -/
def compute_priority_score (severity : String) (vote_count : ℕ)
    (duplicate_count : ℕ) (created_at : ℚ) (status : String) (now : ℚ) : ℚ :=
  let severity_weight := (SEVERITY_WEIGHTS severity).getD 1
  let vote_score : ℚ := (vote_count : ℚ) * VOTE_MULTIPLIER
  let dup_score : ℚ := (duplicate_count : ℚ) * DUPLICATE_MULTIPLIER
  let time_decay : ℚ :=
    if status ≠ "resolved" then
      let days_old := (now - created_at) / 86400
      min (days_old * TIME_DECAY_PER_DAY) TIME_DECAY_CAP
    else 0
  round2 (severity_weight + vote_score + dup_score + time_decay)

/-! Spec-side restatement of the scoring formula, written from the words of
the specification (§4.2), to be compared with the source translation. -/

/-- Spec §4.2: severityWeight is 1.0 for "Low", 5.0 for "Medium", 10.0 for
"High", and 1.0 for any other severity string. -/
def spec_severityWeight (s : String) : ℚ :=
  if s = "Low" then 1 else if s = "Medium" then 5 else if s = "High" then 10 else 1

/-- Spec §4.2: timeDecay is 0 when status is "resolved" and
`min(ageInDays * 0.5, 20.0)` otherwise. -/
def spec_timeDecay (status : String) (ageInDays : ℚ) : ℚ :=
  if status = "resolved" then 0 else min (ageInDays * (1/2)) 20

/-- Spec §4.2: `round(severityWeight + voteCount*2.0 + duplicateCount*1.5
+ timeDecay, 2)`, with ageInDays the elapsed time from creation to `now`. -/
def spec_priority_score (severity : String) (voteCount duplicateCount : ℕ)
    (created_at : ℚ) (status : String) (now : ℚ) : ℚ :=
  round2 (spec_severityWeight severity + (voteCount : ℚ) * 2
    + (duplicateCount : ℚ) * (3/2) + spec_timeDecay status ((now - created_at) / 86400))

/-- C1: for every severity string, non-negative vote and duplicate counts,
creation instant, status string and evaluation instant, the implemented
`compute_priority_score` returns exactly the specified
`round(severityWeight + voteCount*2.0 + duplicateCount*1.5 + timeDecay, 2)`,
with severityWeight defaulting to 1.0 on unknown severities (never an
error) and timeDecay 0 for resolved complaints and
`min(ageInDays * 0.5, 20.0)` otherwise. -/
theorem compute_priority_score_matches_spec (severity : String)
    (vote_count duplicate_count : ℕ) (created_at : ℚ) (status : String)
    (now : ℚ) :
    compute_priority_score severity vote_count duplicate_count created_at status now
      = spec_priority_score severity vote_count duplicate_count created_at status now := by
  unfold compute_priority_score spec_priority_score
  unfold spec_severityWeight spec_timeDecay SEVERITY_WEIGHTS
  unfold VOTE_MULTIPLIER DUPLICATE_MULTIPLIER TIME_DECAY_PER_DAY TIME_DECAY_CAP
  by_cases hL : severity = "Low" <;>
    by_cases hM : severity = "Medium" <;>
      by_cases hH : severity = "High" <;>
        by_cases hR : status = "resolved" <;>
          simp [hL, hM, hH, hR]

/-! ## Rate limiter — `backend/utils/rate_limiter.py` -/

def WINDOW_HOURS : ℚ := 1

/-- `check_complaint_rate_limit`.  The module-level `_submission_log`
defaultdict is the explicit `log` argument (absent users map to `[]`);
`cap` is `settings.rate_limit_complaints` (default 5).  Timestamps are UTC
seconds, so the one-hour cutoff is `now - WINDOW_HOURS * 3600`.  The result
is the updated log together with `true` when HTTP 429 was raised (the
pruned list is written back before the length check, so pruning survives a
rejection). -/
def check_complaint_rate_limit (log : String → List ℚ) (user_id : String)
    (now : ℚ) (cap : ℕ) : (String → List ℚ) × Bool :=
  let cutoff := now - WINDOW_HOURS * 3600
  let pruned := (log user_id).filter (fun t => cutoff < t)
  if cap ≤ pruned.length then
    (Function.update log user_id pruned, true)
  else
    (Function.update log user_id (pruned ++ [now]), false)

/-- A sequence of rate-limit checks (each call is a user id and a call
instant) run from the empty submission log. -/
def run_rate_limit_calls (cap : ℕ) (calls : List (String × ℚ)) :
    String → List ℚ :=
  calls.foldl (fun log c => (check_complaint_rate_limit log c.1 c.2 cap).1)
    (fun _ => [])

lemma check_rate_limit_step_bound (log : String → List ℚ) (u : String)
    (now : ℚ) (cap : ℕ) (hb : ∀ u', (log u').length ≤ cap) :
    ∀ u', (((check_complaint_rate_limit log u now cap).1) u').length ≤ cap := by
  intro u'
  unfold check_complaint_rate_limit
  by_cases hc : cap ≤ ((log u).filter
      (fun t => now - WINDOW_HOURS * 3600 < t)).length
  · simp only [hc, if_pos]
    by_cases hu : u' = u
    · subst hu
      simp only [Function.update_same]
      exact le_trans (List.length_filter_le _ _) (hb u')
    · simp [Function.update_noteq hu, hb u']
  · simp only [hc, if_neg, not_false_iff]
    by_cases hu : u' = u
    · subst hu
      simp only [Function.update_same, List.length_append, List.length_cons,
        List.length_nil]
      omega
    · simp [Function.update_noteq hu, hb u']

lemma run_rate_limit_calls_bound_aux (cap : ℕ) (calls : List (String × ℚ)) :
    ∀ (log : String → List ℚ), (∀ u', (log u').length ≤ cap) →
      ∀ u', ((calls.foldl
        (fun log c => (check_complaint_rate_limit log c.1 c.2 cap).1) log) u').length ≤ cap := by
  induction calls with
  | nil => intro log hb u'; exact hb u'
  | cons c rest ih =>
      intro log hb u'
      exact ih _ (check_rate_limit_step_bound log c.1 c.2 cap hb) u'

/-- C9: each rate-limit check first prunes the user's timestamps older than
the 1-hour rolling window, rejects (HTTP 429) exactly when the pruned list
already holds `cap` or more entries — recording nothing new in that case —
and otherwise appends the current timestamp; consequently, starting from
the empty log, after any sequence of checks every user's recorded
in-window timestamp list has length at most `cap`. -/
theorem check_complaint_rate_limit_spec (log : String → List ℚ)
    (u : String) (now : ℚ) (cap : ℕ) :
    ((check_complaint_rate_limit log u now cap).2 = true ↔
      cap ≤ ((log u).filter (fun t => now - WINDOW_HOURS * 3600 < t)).length) ∧
    ((check_complaint_rate_limit log u now cap).2 = true →
      (check_complaint_rate_limit log u now cap).1 u =
        (log u).filter (fun t => now - WINDOW_HOURS * 3600 < t)) ∧
    ((check_complaint_rate_limit log u now cap).2 = false →
      (check_complaint_rate_limit log u now cap).1 u =
        (log u).filter (fun t => now - WINDOW_HOURS * 3600 < t) ++ [now]) ∧
    (∀ (calls : List (String × ℚ)) (u' : String),
      ((run_rate_limit_calls cap calls) u').length ≤ cap) := by
  refine ⟨?_, ?_, ?_, ?_⟩
  · unfold check_complaint_rate_limit
    by_cases hc : cap ≤ ((log u).filter
        (fun t => now - WINDOW_HOURS * 3600 < t)).length <;> simp [hc]
  · intro h
    unfold check_complaint_rate_limit at h ⊢
    by_cases hc : cap ≤ ((log u).filter
        (fun t => now - WINDOW_HOURS * 3600 < t)).length
    · simp [hc]
    · simp [hc] at h
  · intro h
    unfold check_complaint_rate_limit at h ⊢
    by_cases hc : cap ≤ ((log u).filter
        (fun t => now - WINDOW_HOURS * 3600 < t)).length
    · simp [hc] at h
    · simp [hc]
  · intro calls u'
    exact run_rate_limit_calls_bound_aux cap calls _ (fun _ => Nat.zero_le _) u'

/-- Witness for C9 at a concrete input: with one in-window timestamp
recorded and a cap of 1, the next check rejects and leaves the pruned list
unchanged. -/
theorem check_complaint_rate_limit_spec_witness :
    (check_complaint_rate_limit (fun _ => [(0 : ℚ)]) "u" 10 1).2 = true ∧
    (check_complaint_rate_limit (fun _ => [(0 : ℚ)]) "u" 10 1).1 "u" =
      [(0 : ℚ)] := by
  have h := check_complaint_rate_limit_spec (fun _ => [(0 : ℚ)]) "u" 10 1
  have hfilter : (((fun (_ : String) => [(0 : ℚ)]) "u").filter
      (fun t => (10 : ℚ) - WINDOW_HOURS * 3600 < t)) = [(0 : ℚ)] := by
    simp only [List.filter]
    norm_num [WINDOW_HOURS]
  have hrej : (check_complaint_rate_limit (fun _ => [(0 : ℚ)]) "u" 10 1).2 = true := by
    refine h.1.mpr ?_
    rw [hfilter]
    simp
  refine ⟨hrej, ?_⟩
  have := h.2.1 hrej
  rw [this, hfilter]

/-! ## Similarity engine — `backend/ai/embeddings.py`

Embedding vectors are lists of reals; `math.sqrt` is `Real.sqrt`, so the
vector layer is noncomputable. -/

/-- `sum(a * b for a, b in zip(vec_a, vec_b))`. -/
def dotList (vec_a vec_b : List ℝ) : ℝ :=
  ((vec_a.zip vec_b).map (fun p => p.1 * p.2)).sum

/-- `math.sqrt(sum(a * a for a in vec))`, the `mag_a`/`mag_b` expressions. -/
noncomputable def magnitude (vec : List ℝ) : ℝ :=
  Real.sqrt ((vec.map (fun a => a * a)).sum)

/-- `cosine_similarity` from `backend/ai/embeddings.py`. -/
noncomputable def cosine_similarity (vec_a vec_b : List ℝ) : ℝ :=
  let dot := dotList vec_a vec_b
  let mag_a := magnitude vec_a
  let mag_b := magnitude vec_b
  if mag_a = 0 ∨ mag_b = 0 then 0 else dot / (mag_a * mag_b)

lemma sum_sq_nonneg (vec : List ℝ) : 0 ≤ (vec.map (fun a => a * a)).sum := by
  apply List.sum_nonneg
  intro x hx
  obtain ⟨a, _, rfl⟩ := List.mem_map.mp hx
  exact mul_self_nonneg a

lemma magnitude_nonneg (vec : List ℝ) : 0 ≤ magnitude vec :=
  Real.sqrt_nonneg _

lemma magnitude_eq_zero_iff (vec : List ℝ) :
    magnitude vec = 0 ↔ (vec.map (fun a => a * a)).sum = 0 := by
  unfold magnitude
  constructor
  · intro h
    have := Real.sqrt_eq_zero (sum_sq_nonneg vec) |>.mp h
    exact this
  · intro h
    rw [h, Real.sqrt_zero]

lemma dotList_self (vec : List ℝ) :
    dotList vec vec = (vec.map (fun a => a * a)).sum := by
  unfold dotList
  induction vec with
  | nil => simp
  | cons x xs ih => simp [List.zip_cons_cons, ih]

/-- C7: `cosine_similarity` is total and returns 0.0 whenever either
vector's magnitude is zero; otherwise it returns
`dot(vecA, vecB) / (‖vecA‖ · ‖vecB‖)`; in particular
`cosine_similarity v v = 1` for every vector with positive magnitude, and
the cosine similarity of any vector with an all-zero vector is 0. -/
theorem cosine_similarity_props (a b v : List ℝ) :
    (magnitude a = 0 ∨ magnitude b = 0 → cosine_similarity a b = 0) ∧
    (magnitude a ≠ 0 → magnitude b ≠ 0 →
      cosine_similarity a b = dotList a b / (magnitude a * magnitude b)) ∧
    (0 < magnitude v → cosine_similarity v v = 1) ∧
    (∀ n : ℕ, cosine_similarity a (List.replicate n 0) = 0) := by
  refine ⟨?_, ?_, ?_, ?_⟩
  · intro h
    unfold cosine_similarity
    simp [h]
  · intro ha hb
    unfold cosine_similarity
    simp [ha, hb]
  · intro hv
    have hvne : magnitude v ≠ 0 := ne_of_gt hv
    unfold cosine_similarity
    simp only [hvne, or_self, if_false, if_neg]
    rw [dotList_self]
    unfold magnitude
    rw [Real.mul_self_sqrt (sum_sq_nonneg v)]
    have hsum : (v.map (fun a => a * a)).sum ≠ 0 := by
      intro h0
      exact hvne ((magnitude_eq_zero_iff v).mpr h0)
    exact div_self hsum
  · intro n
    have hz : magnitude (List.replicate n (0 : ℝ)) = 0 := by
      unfold magnitude
      simp
    unfold cosine_similarity
    simp [hz]

/-- Witness for C7 at concrete vectors: `cosine_similarity [3,4] [3,4] = 1`
(the magnitude 5 is positive) and the similarity of `[3,4]` with the
all-zero vector `[0,0]` is 0. -/
theorem cosine_similarity_props_witness :
    cosine_similarity [(3 : ℝ), 4] [(3 : ℝ), 4] = 1 ∧
    cosine_similarity [(3 : ℝ), 4] (List.replicate 2 (0 : ℝ)) = 0 := by
  have hmag : magnitude [(3 : ℝ), 4] = 5 := by
    unfold magnitude
    norm_num
    rw [show (25 : ℝ) = 5 ^ 2 by norm_num, Real.sqrt_sq (by norm_num : (0:ℝ) ≤ 5)]
  have h := cosine_similarity_props [(3 : ℝ), 4] [(3 : ℝ), 4] [(3 : ℝ), 4]
  exact ⟨h.2.2.1 (by rw [hmag]; norm_num), h.2.2.2 2⟩

/-- The `embedding` value of a stored vector row, as the duplicate scan
sees it: absent/null, present but undecodable (`json.loads` or the
similarity arithmetic raises), or a decoded numeric vector. -/
inductive EmbField where
  | missing : EmbField
  | unparseable : EmbField
  | parsed : List ℝ → EmbField

/-- One row of the `complaint_vectors` corpus:
`{ complaint_id, embedding }`. -/
structure VectorRow where
  complaint_id : String
  embedding : EmbField

/-- The dict `{ "complaint_id": ..., "similarity": ... }` returned by
`find_duplicate` on a hit. -/
structure DupMatch where
  complaint_id : String
  similarity : ℝ

def SIMILARITY_THRESHOLD : ℝ := 0.85

/-- The vector the loop body actually compares against, if any: a missing
field is skipped by `if not existing`, a failed decode is skipped by the
`except: continue`, and an empty decoded list is also falsy. -/
def decodeEmbedding : EmbField → Option (List ℝ)
  | .missing => none
  | .unparseable => none
  | .parsed v => if v.isEmpty then none else some v

/-- One iteration of the `for item in stored_vectors` loop: skip rows
without a usable vector, otherwise update `(best_match, best_score)` when
`score > best_score` (strict, so the first-seen row wins ties). -/
noncomputable def find_duplicate_step (new_embedding : List ℝ)
    (best : Option VectorRow × ℝ) (item : VectorRow) : Option VectorRow × ℝ :=
  match decodeEmbedding item.embedding with
  | none => best
  | some existing =>
      let score := cosine_similarity new_embedding existing
      if best.2 < score then (some item, score) else best

/-- `find_duplicate` from `backend/ai/embeddings.py`: fold the loop over
the corpus starting from `(None, 0.0)`, then return the best row's id and
score only when `best_score > SIMILARITY_THRESHOLD and best_match`. -/
noncomputable def find_duplicate (new_embedding : List ℝ)
    (stored_vectors : List VectorRow) : Option DupMatch :=
  let best := stored_vectors.foldl (find_duplicate_step new_embedding) (none, 0)
  if SIMILARITY_THRESHOLD < best.2 then
    best.1.map (fun m => { complaint_id := m.complaint_id, similarity := best.2 })
  else none

/-- Invariant of the scan state after processing a prefix of the corpus:
every usable score seen so far is at most `best_score`, and either nothing
was retained (`best_score` still 0) or the retained row is the first one
attaining `best_score`, which is positive. -/
def ScanInv (new_embedding : List ℝ) (processed : List VectorRow)
    (st : Option VectorRow × ℝ) : Prop :=
  (∀ r ∈ processed, ∀ v, decodeEmbedding r.embedding = some v →
      cosine_similarity new_embedding v ≤ st.2) ∧
  ((st.1 = none ∧ st.2 = 0) ∨
   (∃ pre r suf v, processed = pre ++ r :: suf ∧ st.1 = some r ∧
      decodeEmbedding r.embedding = some v ∧
      cosine_similarity new_embedding v = st.2 ∧ 0 < st.2 ∧
      ∀ r' ∈ pre, ∀ v', decodeEmbedding r'.embedding = some v' →
        cosine_similarity new_embedding v' < st.2))

lemma scanInv_nonneg {new_embedding : List ℝ} {processed : List VectorRow}
    {st : Option VectorRow × ℝ} (h : ScanInv new_embedding processed st) :
    0 ≤ st.2 := by
  rcases h.2 with ⟨-, h0⟩ | ⟨-, -, -, -, -, -, -, -, hpos, -⟩
  · rw [h0]
  · exact le_of_lt hpos

lemma scanInv_step (new_embedding : List ℝ) (processed : List VectorRow)
    (st : Option VectorRow × ℝ) (c : VectorRow)
    (h : ScanInv new_embedding processed st) :
    ScanInv new_embedding (processed ++ [c])
      (find_duplicate_step new_embedding st c) := by
  unfold find_duplicate_step
  rcases hdec : decodeEmbedding c.embedding with - | v
  · constructor
    · intro r hr v hv
      rcases List.mem_append.mp hr with hr | hr
      · exact h.1 r hr v hv
      · rw [List.mem_singleton.mp hr] at hv
        rw [hdec] at hv
        exact absurd hv (by simp)
    · rcases h.2 with hnone | ⟨pre, r, suf, v, hsplit, hbm, hd, hs, hpos, hpre⟩
      · exact Or.inl hnone
      · refine Or.inr ⟨pre, r, suf ++ [c], v, ?_, hbm, hd, hs, hpos, hpre⟩
        rw [hsplit]
        simp
  · by_cases hlt : st.2 < cosine_similarity new_embedding v
    · simp only [hlt, if_pos]
      constructor
      · intro r hr v' hv'
        rcases List.mem_append.mp hr with hr | hr
        · exact le_of_lt (lt_of_le_of_lt (h.1 r hr v' hv') hlt)
        · rw [List.mem_singleton.mp hr] at hv'
          rw [hdec] at hv'
          rw [Option.some_inj.mp hv']
      · refine Or.inr ⟨processed, c, [], v, by simp, rfl, hdec, rfl,
          lt_of_le_of_lt (scanInv_nonneg h) hlt, ?_⟩
        intro r' hr' v' hv'
        exact lt_of_le_of_lt (h.1 r' hr' v' hv') hlt
    · simp only [hlt, if_neg, not_false_iff]
      constructor
      · intro r hr v' hv'
        rcases List.mem_append.mp hr with hr | hr
        · exact h.1 r hr v' hv'
        · rw [List.mem_singleton.mp hr] at hv'
          rw [hdec] at hv'
          rw [← Option.some_inj.mp hv']
          exact le_of_not_lt hlt
      · rcases h.2 with hnone | ⟨pre, r, suf, v', hsplit, hbm, hd, hs, hpos, hpre⟩
        · exact Or.inl hnone
        · refine Or.inr ⟨pre, r, suf ++ [c], v', ?_, hbm, hd, hs, hpos, hpre⟩
          rw [hsplit]
          simp

lemma scanInv_foldl (new_embedding : List ℝ) :
    ∀ (rest processed : List VectorRow) (st : Option VectorRow × ℝ),
      ScanInv new_embedding processed st →
      ScanInv new_embedding (processed ++ rest)
        (rest.foldl (find_duplicate_step new_embedding) st) := by
  intro rest
  induction rest with
  | nil => intro processed st h; simpa using h
  | cons c cs ih =>
      intro processed st h
      have := ih (processed ++ [c]) (find_duplicate_step new_embedding st c)
        (scanInv_step new_embedding processed st c h)
      simpa using this

lemma scanInv_full (new_embedding : List ℝ) (stored : List VectorRow) :
    ScanInv new_embedding stored
      (stored.foldl (find_duplicate_step new_embedding) (none, 0)) := by
  have h0 : ScanInv new_embedding [] ((none : Option VectorRow), (0 : ℝ)) := by
    constructor
    · intro r hr; exact absurd hr (List.not_mem_nil r)
    · exact Or.inl ⟨rfl, rfl⟩
  simpa using scanInv_foldl new_embedding stored [] (none, 0) h0

lemma magnitude_eval (l : List ℝ) (m : ℝ) (hm : 0 ≤ m)
    (h : (l.map (fun a => a * a)).sum = m ^ 2) : magnitude l = m := by
  unfold magnitude
  rw [h, Real.sqrt_sq hm]

lemma mag_e1 : magnitude [(1 : ℝ), 0, 0, 0, 0] = 1 := by
  apply magnitude_eval _ _ (by norm_num)
  norm_num

lemma mag_v85 : magnitude [(17 : ℝ), 10, 3, 1, 1] = 20 := by
  apply magnitude_eval _ _ (by norm_num)
  norm_num

lemma mag_v851 : magnitude [(851 : ℝ), 525, 13, 2, 1] = 1000 := by
  apply magnitude_eval _ _ (by norm_num)
  norm_num

lemma cos_eval_85 :
    cosine_similarity [(1 : ℝ), 0, 0, 0, 0] [(17 : ℝ), 10, 3, 1, 1] = 17/20 := by
  unfold cosine_similarity
  rw [mag_e1, mag_v85]
  norm_num [dotList]

lemma cos_eval_851 :
    cosine_similarity [(1 : ℝ), 0, 0, 0, 0] [(851 : ℝ), 525, 13, 2, 1]
      = 851/1000 := by
  unfold cosine_similarity
  rw [mag_e1, mag_v851]
  norm_num [dotList]

lemma find_dup_eval_85 :
    find_duplicate [(1 : ℝ), 0, 0, 0, 0]
      [⟨"c1", EmbField.parsed [(17 : ℝ), 10, 3, 1, 1]⟩] = none := by
  unfold find_duplicate
  simp only [List.foldl]
  unfold find_duplicate_step
  simp only [decodeEmbedding, List.isEmpty_cons, Bool.false_eq_true, if_false]
  rw [cos_eval_85]
  norm_num [SIMILARITY_THRESHOLD]

lemma find_dup_eval_851 :
    find_duplicate [(1 : ℝ), 0, 0, 0, 0]
      [⟨"c1", EmbField.parsed [(851 : ℝ), 525, 13, 2, 1]⟩]
      = some ⟨"c1", 851/1000⟩ := by
  unfold find_duplicate
  simp only [List.foldl]
  unfold find_duplicate_step
  simp only [decodeEmbedding, List.isEmpty_cons, Bool.false_eq_true, if_false]
  rw [cos_eval_851]
  norm_num [SIMILARITY_THRESHOLD]

/-- C2: for every new embedding and corpus, `find_duplicate` skips entries
without a decodable vector, tracks the maximum cosine similarity of the
remaining entries with a strict comparison (first-seen entry wins exact
ties), and returns a match exactly when that maximum strictly exceeds the
0.85 threshold: a returned match scores above 0.85, bounds every usable
score, and is the first corpus entry attaining its score, while a `none`
result means every usable score is at most 0.85; in particular the scan of
a corpus whose best score is exactly 0.85 returns no match, and one with
best score 0.851 returns that match. -/
theorem find_duplicate_spec (new_embedding : List ℝ)
    (stored : List VectorRow) :
    (∀ m, find_duplicate new_embedding stored = some m →
      SIMILARITY_THRESHOLD < m.similarity ∧
      (∀ r ∈ stored, ∀ v, decodeEmbedding r.embedding = some v →
        cosine_similarity new_embedding v ≤ m.similarity) ∧
      (∃ pre r suf v, stored = pre ++ r :: suf ∧
        r.complaint_id = m.complaint_id ∧
        decodeEmbedding r.embedding = some v ∧
        cosine_similarity new_embedding v = m.similarity ∧
        ∀ r' ∈ pre, ∀ v', decodeEmbedding r'.embedding = some v' →
          cosine_similarity new_embedding v' < m.similarity)) ∧
    (find_duplicate new_embedding stored = none →
      ∀ r ∈ stored, ∀ v, decodeEmbedding r.embedding = some v →
        cosine_similarity new_embedding v ≤ SIMILARITY_THRESHOLD) ∧
    find_duplicate [(1 : ℝ), 0, 0, 0, 0]
      [⟨"c1", EmbField.parsed [(17 : ℝ), 10, 3, 1, 1]⟩] = none ∧
    find_duplicate [(1 : ℝ), 0, 0, 0, 0]
      [⟨"c1", EmbField.parsed [(851 : ℝ), 525, 13, 2, 1]⟩]
      = some ⟨"c1", 851/1000⟩ := by
  have hinv := scanInv_full new_embedding stored
  set st := stored.foldl (find_duplicate_step new_embedding) (none, 0) with hst
  refine ⟨?_, ?_, find_dup_eval_85, find_dup_eval_851⟩
  · intro m hm
    unfold find_duplicate at hm
    rw [← hst] at hm
    by_cases hthr : SIMILARITY_THRESHOLD < st.2
    · simp only [hthr, if_pos] at hm
      rcases hinv.2 with ⟨-, h0⟩ | ⟨pre, r, suf, v, hsplit, hbm, hd, hs, hpos, hpre⟩
      · rw [h0] at hthr
        norm_num [SIMILARITY_THRESHOLD] at hthr
      · rw [hbm] at hm
        simp only [Option.map_some'] at hm
        have hmeq : m = ⟨r.complaint_id, st.2⟩ := (Option.some_inj.mp hm).symm
        subst hmeq
        refine ⟨hthr, fun r' hr' v' hv' => hinv.1 r' hr' v' hv',
          ⟨pre, r, suf, v, hsplit, rfl, hd, hs, fun r' hr' v' hv' => hpre r' hr' v' hv'⟩⟩
    · simp only [hthr, if_neg, not_false_iff] at hm
      exact absurd hm (by simp)
  · intro hnone r hr v hv
    unfold find_duplicate at hnone
    rw [← hst] at hnone
    by_cases hthr : SIMILARITY_THRESHOLD < st.2
    · simp only [hthr, if_pos] at hnone
      rcases hinv.2 with ⟨-, h0⟩ | ⟨pre, r', suf, v', hsplit, hbm, hd, hs, hpos, hpre⟩
      · rw [h0] at hthr
        norm_num [SIMILARITY_THRESHOLD] at hthr
      · rw [hbm] at hnone
        simp at hnone
    · exact le_trans (hinv.1 r hr v hv) (le_of_not_lt hthr)

/-- Witness for C2: the corpus whose single entry scores 0.851 against the
new vector yields a match strictly above the threshold, and the corpus
whose single entry scores exactly 0.85 yields no match. -/
theorem find_duplicate_spec_witness :
    SIMILARITY_THRESHOLD < ((851 : ℝ)/1000) ∧
    find_duplicate [(1 : ℝ), 0, 0, 0, 0]
      [⟨"c1", EmbField.parsed [(17 : ℝ), 10, 3, 1, 1]⟩] = none := by
  have h := find_duplicate_spec [(1 : ℝ), 0, 0, 0, 0]
    [⟨"c1", EmbField.parsed [(851 : ℝ), 525, 13, 2, 1]⟩]
  exact ⟨(h.1 ⟨"c1", 851/1000⟩ find_dup_eval_851).1, h.2.2.1⟩

/-! ## Complaint service — `backend/services/complaint_service.py`

The Supabase data store is an explicit state of four tables; external
outcomes (the Gemini analysis, the embedding, the success of the primary
and secondary inserts) are parameters of the pipeline. -/

/-- Validated request body (`ComplaintCreate` in `schemas/complaint.py`);
the pydantic enums are kept as strings, with membership stated where a
claim needs it. -/
structure ComplaintCreate where
  title : String
  description : String
  category : String
  severity : String
  location : String
  image_url : Option String

/-- The dict returned by a successful `analyze_complaint` call; each field
is optional because the pipeline reads it with `dict.get`. -/
structure AIResult where
  category : Option String
  severity : Option String
  summary : Option String
  keywords : Option (List String)

/-- One row of the `complaints` table.  `created_at` is the row-creation
instant filled by the store. -/
structure Complaint where
  id : String
  user_id : String
  title : String
  description : String
  category : String
  severity : String
  priority_score : ℚ
  location : String
  status : String
  image_url : Option String
  ai_summary : Option String
  keywords : List String
  is_duplicate : Bool
  duplicate_of : Option String
  created_at : ℚ

/-- One row of the `votes` table. -/
structure Vote where
  complaint_id : String
  user_id : String

/-- One row of the `resolution_logs` table. -/
structure ResolutionLog where
  complaint_id : String
  resolved_by : String
  resolution_note : String

/-- The data store. -/
structure DB where
  complaints : List Complaint
  votes : List Vote
  complaint_vectors : List VectorRow
  resolution_logs : List ResolutionLog

/-- `select("id", count="exact").eq("complaint_id", complaint_id)` on
`votes`. -/
def countVotes (db : DB) (complaint_id : String) : ℕ :=
  (db.votes.filter (fun v => v.complaint_id = complaint_id)).length

/-- `select("id", count="exact").eq("duplicate_of", complaint_id)` on
`complaints`. -/
def countDuplicates (db : DB) (complaint_id : String) : ℕ :=
  (db.complaints.filter (fun c => c.duplicate_of = some complaint_id)).length

/-- `_refresh_priority`: re-read the complaint, re-count votes and
duplicate references, recompute the score, write it back; every failure
(including a missing row) leaves the store unchanged. -/
def _refresh_priority (db : DB) (complaint_id : String) (now : ℚ) : DB :=
  match db.complaints.find? (fun c => c.id = complaint_id) with
  | none => db
  | some c =>
      let votes := countVotes db complaint_id
      let dups := countDuplicates db complaint_id
      let new_score := compute_priority_score c.severity votes dups
        c.created_at c.status now
      { db with complaints := db.complaints.map (fun c2 =>
          if c2.id = complaint_id then { c2 with priority_score := new_score }
          else c2) }

/-- Python truthiness of the embedding result (`if embedding:`): `None`
and the empty list are both falsy. -/
def embTruthy : Option (List ℝ) → Bool
  | none => false
  | some v => !v.isEmpty

/-- The fallback dict built in `create_complaint` when `analyze_complaint`
raises: user-declared category/severity, the first 200 characters of the
description as summary, empty keywords. -/
def fallbackAIResult (data : ComplaintCreate) : AIResult :=
  { category := some data.category
    severity := some data.severity
    summary := some (data.description.take 200)
    keywords := some [] }

/-- Step 1 of `create_complaint` together with the `dict.get` reads: the
dict whose fields the pipeline uses, the fallback dict when
`analyze_complaint` raised (`aiOutcome = none`). -/
def effectiveAIResult (aiOutcome : Option AIResult)
    (data : ComplaintCreate) : AIResult :=
  aiOutcome.getD (fallbackAIResult data)

/-- Step 3 of `create_complaint`: duplicate detection, producing
`(is_duplicate, duplicate_of, duplicate_count)`.  Skipped entirely (all
defaults) when the embedding is unavailable or empty; on a hit,
`duplicate_count` is the parent's current duplicate-reference count,
queried before the new row is inserted. -/
noncomputable def duplicateDetection (db : DB)
    (embedding : Option (List ℝ)) : Bool × Option String × ℕ :=
  if embTruthy embedding then
    match find_duplicate (embedding.getD []) db.complaint_vectors with
    | none => (false, none, 0)
    | some dup => (true, some dup.complaint_id,
        countDuplicates db dup.complaint_id)
  else (false, none, 0)

/-- Steps 4–5 of `create_complaint`: the `complaint_row` dict inserted
into `complaints` (with the store filling `created_at := now`). -/
noncomputable def newComplaintRow (db : DB) (data : ComplaintCreate)
    (user_id : String) (aiOutcome : Option AIResult)
    (embedding : Option (List ℝ)) (newId : String) (now : ℚ) : Complaint :=
  let ai_result := effectiveAIResult aiOutcome data
  let effective_category := ai_result.category.getD data.category
  let effective_severity := ai_result.severity.getD data.severity
  let dupState := duplicateDetection db embedding
  let priority := compute_priority_score effective_severity 0 dupState.2.2
    now "pending" now
  { id := newId
    user_id := user_id
    title := data.title
    description := data.description
    category := effective_category
    severity := effective_severity
    priority_score := priority
    location := data.location
    status := "pending"
    image_url := data.image_url
    ai_summary := ai_result.summary
    keywords := ai_result.keywords.getD []
    is_duplicate := dupState.1
    duplicate_of := dupState.2.1
    created_at := now }

/-- `create_complaint`: AI analysis (with fallback) → duplicate detection
(skipped when the embedding is unavailable or empty) → priority score →
insert → store the vector (non-fatal) → refresh the duplicate parent.
`aiOutcome` is `none` when `analyze_complaint` raised; `insertOk` is the
success of the primary insert (failure raises HTTP 500); `vectorInsertOk`
is the success of the secondary vector insert (failure is swallowed);
`newId` is the id the store assigns to the new row and `now` the
submission instant. -/
noncomputable def create_complaint (db : DB) (data : ComplaintCreate)
    (user_id : String) (aiOutcome : Option AIResult)
    (embedding : Option (List ℝ)) (newId : String) (now : ℚ)
    (insertOk : Bool) (vectorInsertOk : Bool) :
    Except ℕ (DB × Complaint) :=
  let dupState := duplicateDetection db embedding
  let complaint_row := newComplaintRow db data user_id aiOutcome embedding
    newId now
  if insertOk then
    let db1 : DB := { db with complaints := db.complaints ++ [complaint_row] }
    let db2 : DB :=
      if embTruthy embedding && vectorInsertOk then
        { db1 with complaint_vectors := db1.complaint_vectors ++
            [⟨newId, EmbField.parsed (embedding.getD [])⟩] }
      else db1
    let db3 : DB :=
      match dupState.2.1 with
      | some parent =>
          if parent = "" then db2 else _refresh_priority db2 parent now
      | none => db2
    Except.ok (db3, complaint_row)
  else Except.error 500

/-- `vote_on_complaint`: 409 when the (user, complaint) pair already
voted, else 404 when the complaint is missing, else insert one vote,
refresh the priority and return the updated vote count. -/
def vote_on_complaint (db : DB) (complaint_id : String) (user_id : String)
    (now : ℚ) : Except ℕ (DB × ℕ) :=
  if !(db.votes.filter (fun v =>
      v.complaint_id = complaint_id ∧ v.user_id = user_id)).isEmpty then
    Except.error 409
  else if (db.complaints.filter (fun c => c.id = complaint_id)).isEmpty then
    Except.error 404
  else
    let db1 : DB := { db with votes := db.votes ++ [⟨complaint_id, user_id⟩] }
    let db2 := _refresh_priority db1 complaint_id now
    Except.ok (db2, countVotes db2 complaint_id)

/-- `resolve_complaint`: 404 when the complaint is missing, else set its
status to "resolved" and append a resolution-log row (the existence check
reads the current status but never branches on it). -/
def resolve_complaint (db : DB) (complaint_id : String) (admin_id : String)
    (note : String) : Except ℕ (DB × String) :=
  if (db.complaints.filter (fun c => c.id = complaint_id)).isEmpty then
    Except.error 404
  else
    let db1 : DB := { db with complaints := db.complaints.map (fun c =>
        if c.id = complaint_id then { c with status := "resolved" } else c) }
    let db2 : DB := { db1 with resolution_logs := db1.resolution_logs ++
        [⟨complaint_id, admin_id, note⟩] }
    Except.ok (db2, "resolved")

lemma find_duplicate_id_mem (new_embedding : List ℝ)
    (stored : List VectorRow) (m : DupMatch)
    (h : find_duplicate new_embedding stored = some m) :
    ∃ r ∈ stored, r.complaint_id = m.complaint_id := by
  have hinv := scanInv_full new_embedding stored
  unfold find_duplicate at h
  by_cases hthr : SIMILARITY_THRESHOLD <
      (stored.foldl (find_duplicate_step new_embedding) (none, 0)).2
  · rw [if_pos hthr] at h
    rcases hinv.2 with ⟨-, h0⟩ | ⟨pre, r, suf, v, hsplit, hbm, hd, hs, hpos, hpre⟩
    · rw [h0] at hthr
      norm_num [SIMILARITY_THRESHOLD] at hthr
    · rw [hbm] at h
      simp only [Option.map_some'] at h
      refine ⟨r, ?_, ?_⟩
      · rw [hsplit]
        exact List.mem_append.mpr (Or.inr (List.mem_cons_self _ _))
      · cases Option.some_inj.mp h
        rfl
  · rw [if_neg hthr] at h
    exact absurd h (by simp)

lemma mem_refresh_of_ne (db : DB) (pid : String) (now : ℚ) (c : Complaint)
    (hc : c ∈ db.complaints) (hne : c.id ≠ pid) :
    c ∈ (_refresh_priority db pid now).complaints := by
  unfold _refresh_priority
  cases hfind : db.complaints.find? (fun x => x.id = pid) with
  | none => exact hc
  | some c0 =>
      simp only
      exact List.mem_map.mpr ⟨c, hc, by simp [hne]⟩

lemma duplicateDetection_parent (db : DB) (embedding : Option (List ℝ))
    (parent : String)
    (h : (duplicateDetection db embedding).2.1 = some parent) :
    ∃ r ∈ db.complaint_vectors, r.complaint_id = parent := by
  unfold duplicateDetection at h
  by_cases hemb : embTruthy embedding = true
  · rw [if_pos hemb] at h
    cases hdup : find_duplicate (embedding.getD []) db.complaint_vectors with
    | none => rw [hdup] at h; exact absurd h (by simp)
    | some dup =>
        rw [hdup] at h
        simp only at h
        obtain ⟨r, hr, hid⟩ := find_duplicate_id_mem _ _ _ hdup
        exact ⟨r, hr, by rw [hid, Option.some_inj.mp h]⟩
  · rw [if_neg hemb] at h
    exact absurd h (by simp)

/-- The new row is among the complaints of the store `create_complaint`
returns, provided the store-assigned id is fresh for the vector corpus
(so the parent refresh cannot rewrite the new row). -/
lemma newComplaintRow_mem (db : DB) (data : ComplaintCreate)
    (user_id : String) (aiOutcome : Option AIResult)
    (embedding : Option (List ℝ)) (newId : String) (now : ℚ) (vOk : Bool)
    (hfresh : ∀ r ∈ db.complaint_vectors, r.complaint_id ≠ newId)
    (db' : DB) (row : Complaint)
    (h : create_complaint db data user_id aiOutcome embedding newId now
      true vOk = Except.ok (db', row)) :
    row = newComplaintRow db data user_id aiOutcome embedding newId now ∧
    row ∈ db'.complaints := by
  unfold create_complaint at h
  simp only [if_true] at h
  cases hpar : (duplicateDetection db embedding).2.1 with
  | none =>
      rw [hpar] at h
      simp only at h
      obtain ⟨hdb, hrow⟩ := Prod.mk.injEq .. ▸ (Except.ok.injEq .. ▸ h)
      refine ⟨hrow.symm, ?_⟩
      rw [← hdb, ← hrow]
      by_cases hv : (embTruthy embedding && vOk) = true <;>
        simp [hv, List.mem_append]
  | some parent =>
      rw [hpar] at h
      simp only at h
      by_cases hpe : parent = ""
      · rw [if_pos hpe] at h
        obtain ⟨hdb, hrow⟩ := Prod.mk.injEq .. ▸ (Except.ok.injEq .. ▸ h)
        refine ⟨hrow.symm, ?_⟩
        rw [← hdb, ← hrow]
        by_cases hv : (embTruthy embedding && vOk) = true <;>
          simp [hv, List.mem_append]
      · rw [if_neg hpe] at h
        obtain ⟨hdb, hrow⟩ := Prod.mk.injEq .. ▸ (Except.ok.injEq .. ▸ h)
        refine ⟨hrow.symm, ?_⟩
        obtain ⟨r, hr, hrid⟩ := duplicateDetection_parent db embedding parent hpar
        have hne : (newComplaintRow db data user_id aiOutcome embedding
            newId now).id ≠ parent := by
          intro hcon
          apply hfresh r hr
          rw [hrid, ← hcon]
          rfl
        rw [← hdb, ← hrow]
        apply mem_refresh_of_ne
        · by_cases hv : (embTruthy embedding && vOk) = true <;>
            simp [hv, List.mem_append]
        · exact hne

/-- C4: when the classifier call fails (`analyze_complaint` raises, times
out, or returns malformed output — all reaching the `except` branch, so
`aiOutcome = none`), `create_complaint` still succeeds and persists a
complaint whose category and severity are the user-declared values, whose
AI summary is the first 200 characters of the description, and whose
keyword list is empty.  The freshness hypothesis says the store-assigned
id is new to the vector corpus. -/
theorem create_complaint_classifier_failure (db : DB)
    (data : ComplaintCreate) (user_id : String)
    (embedding : Option (List ℝ)) (newId : String) (now : ℚ) (vOk : Bool)
    (hfresh : ∀ r ∈ db.complaint_vectors, r.complaint_id ≠ newId) :
    ∃ db' row,
      create_complaint db data user_id none embedding newId now true vOk
        = Except.ok (db', row) ∧
      row ∈ db'.complaints ∧
      row.category = data.category ∧
      row.severity = data.severity ∧
      row.ai_summary = some (data.description.take 200) ∧
      row.keywords = [] := by
  obtain ⟨db', row, hok⟩ : ∃ db' row,
      create_complaint db data user_id none embedding newId now true vOk
        = Except.ok (db', row) := ⟨_, _, rfl⟩
  obtain ⟨hroweq, hmem⟩ := newComplaintRow_mem db data user_id none embedding
    newId now vOk hfresh db' row hok
  refine ⟨db', row, hok, hmem, ?_, ?_, ?_, ?_⟩ <;>
    rw [hroweq] <;>
      simp [newComplaintRow, effectiveAIResult, fallbackAIResult]

/-- Witness for C4 at a concrete submission into the empty store with the
classifier down: the complaint is persisted with the user's category and
severity, the truncated description as summary and no keywords. -/
theorem create_complaint_classifier_failure_witness :
    ∃ db' row,
      create_complaint ⟨[], [], [], []⟩
          ⟨"Title", "Desc", "Other", "Low", "Loc", none⟩ "u1" none none
          "c1" 0 true false
        = Except.ok (db', row) ∧
      row ∈ db'.complaints ∧
      row.category = "Other" ∧
      row.severity = "Low" ∧
      row.ai_summary = some (("Desc" : String).take 200) ∧
      row.keywords = [] :=
  create_complaint_classifier_failure ⟨[], [], [], []⟩
    ⟨"Title", "Desc", "Other", "Low", "Loc", none⟩ "u1" none "c1" 0 false
    (fun r hr => absurd hr (List.not_mem_nil r))

/-! ## Embedding client — `get_embedding` in `backend/ai/embeddings.py` -/

/-- What the `try` block of `get_embedding` can run into: a parsed
response body carrying `data["embedding"]["values"]`, or any raised
exception (timeout, transport error, non-2xx status from
`raise_for_status`, malformed/short JSON). -/
inductive EmbedOutcome where
  | ok : List ℝ → EmbedOutcome
  | fail : EmbedOutcome

/-- `get_embedding`: returns the response's vector, and `None` on any
failure (the blanket `except Exception: return None`) — it never raises
past this boundary. -/
def get_embedding : EmbedOutcome → Option (List ℝ)
  | .ok values => some values
  | .fail => none

lemma duplicateDetection_none_emb (db : DB) :
    duplicateDetection db none = (false, none, 0) := rfl

/-- C8: `get_embedding` is total over every call outcome, returning the
explicit unavailable signal `none` on any failure; and a submission whose
embedding is unavailable skips duplicate detection entirely — the
complaint is persisted with no duplicate flag, no parent reference and
duplicate count 0 (its score is computed with duplicate count 0), no
vector is stored, and the submission succeeds. -/
theorem get_embedding_failure_nonblocking (db : DB)
    (data : ComplaintCreate) (user_id : String) (aiOutcome : Option AIResult)
    (newId : String) (now : ℚ) (vOk : Bool) :
    get_embedding EmbedOutcome.fail = none ∧
    (∀ o : EmbedOutcome,
      get_embedding o = none ∨ ∃ v, get_embedding o = some v) ∧
    (∃ db' row,
      create_complaint db data user_id aiOutcome
          (get_embedding EmbedOutcome.fail) newId now true vOk
        = Except.ok (db', row) ∧
      row.is_duplicate = false ∧
      row.duplicate_of = none ∧
      row.priority_score = compute_priority_score
        ((effectiveAIResult aiOutcome data).severity.getD data.severity)
        0 0 now "pending" now ∧
      db'.complaints = db.complaints ++ [row] ∧
      db'.complaint_vectors = db.complaint_vectors) := by
  refine ⟨rfl, ?_, ?_⟩
  · intro o
    cases o with
    | ok values => exact Or.inr ⟨values, rfl⟩
    | fail => exact Or.inl rfl
  · refine ⟨_, _, rfl, ?_, ?_, ?_, ?_, ?_⟩ <;>
      simp [create_complaint, newComplaintRow, duplicateDetection_none_emb,
        get_embedding, embTruthy]

/-! ## Closed enumerations — `backend/schemas/complaint.py` -/

/-- `SeverityLevel` enum. -/
def SEVERITY_LEVELS : List String := ["Low", "Medium", "High"]

/-- `ComplaintCategory` enum. -/
def COMPLAINT_CATEGORIES : List String :=
  ["Road & Infrastructure", "Water Supply", "Sanitation", "Electricity",
   "Public Safety", "Parks & Green Spaces", "Noise Pollution", "Other"]

lemma create_complaint_row_eq (db : DB) (data : ComplaintCreate)
    (user_id : String) (aiOutcome : Option AIResult)
    (embedding : Option (List ℝ)) (newId : String) (now : ℚ) (vOk : Bool)
    (db' : DB) (row : Complaint)
    (h : create_complaint db data user_id aiOutcome embedding newId now
      true vOk = Except.ok (db', row)) :
    row = newComplaintRow db data user_id aiOutcome embedding newId now := by
  unfold create_complaint at h
  simp only [if_true] at h
  cases hpar : (duplicateDetection db embedding).2.1 with
  | none =>
      rw [hpar] at h
      simp only at h
      exact ((Prod.mk.injEq .. ▸ (Except.ok.injEq .. ▸ h)).2).symm
  | some parent =>
      rw [hpar] at h
      simp only at h
      by_cases hpe : parent = ""
      · rw [if_pos hpe] at h
        exact ((Prod.mk.injEq .. ▸ (Except.ok.injEq .. ▸ h)).2).symm
      · rw [if_neg hpe] at h
        exact ((Prod.mk.injEq .. ▸ (Except.ok.injEq .. ▸ h)).2).symm

/-- C3 counterexample: a submission whose classifier call succeeds with
category "Banana" and severity "Critical" is persisted verbatim —
`create_complaint` reads the AI dict with `.get` and never validates the
strings against the closed enumerations, so the stored row's severity and
category lie outside them. -/
theorem create_complaint_enum_violation_cex :
    ∃ db' row,
      create_complaint ⟨[], [], [], []⟩
          ⟨"Title", "Desc", "Other", "Low", "Loc", none⟩ "u1"
          (some ⟨some "Banana", some "Critical", some "sum", some ["k"]⟩)
          none "c1" 0 true false
        = Except.ok (db', row) ∧
      row ∈ db'.complaints ∧
      row.severity = "Critical" ∧ "Critical" ∉ SEVERITY_LEVELS ∧
      row.category = "Banana" ∧ "Banana" ∉ COMPLAINT_CATEGORIES := by
  refine ⟨_, _, rfl, ?_, ?_, ?_, ?_, ?_⟩
  · simp [create_complaint, duplicateDetection_none_emb, embTruthy]
  · simp [newComplaintRow, effectiveAIResult]
  · simp [SEVERITY_LEVELS]
  · simp [newComplaintRow, effectiveAIResult]
  · simp [COMPLAINT_CATEGORIES]

/-- C3 amended: when the classifier succeeds, its category and severity
strings are taken as-is (`dict.get` with the user value only as the
missing-key default) with no validation against the closed enumerations;
consequently the persisted row's category/severity lie in the
enumerations only under the assumption that the classifier's output (or,
for a missing key, the user's declared value) does. -/
theorem create_complaint_ai_passthrough (db : DB) (data : ComplaintCreate)
    (user_id : String) (ai : AIResult) (embedding : Option (List ℝ))
    (newId : String) (now : ℚ) (vOk : Bool) (db' : DB) (row : Complaint)
    (h : create_complaint db data user_id (some ai) embedding newId now
      true vOk = Except.ok (db', row)) :
    row.category = ai.category.getD data.category ∧
    row.severity = ai.severity.getD data.severity ∧
    ((∀ c, ai.category = some c → c ∈ COMPLAINT_CATEGORIES) →
      data.category ∈ COMPLAINT_CATEGORIES →
      row.category ∈ COMPLAINT_CATEGORIES) ∧
    ((∀ s, ai.severity = some s → s ∈ SEVERITY_LEVELS) →
      data.severity ∈ SEVERITY_LEVELS →
      row.severity ∈ SEVERITY_LEVELS) := by
  have hrow := create_complaint_row_eq db data user_id (some ai) embedding
    newId now vOk db' row h
  refine ⟨?_, ?_, ?_, ?_⟩
  · rw [hrow]
    simp [newComplaintRow, effectiveAIResult]
  · rw [hrow]
    simp [newComplaintRow, effectiveAIResult]
  · intro hai huser
    rw [hrow]
    cases hc : ai.category with
    | none => simpa [newComplaintRow, effectiveAIResult, hc] using huser
    | some c =>
        have := hai c hc
        simpa [newComplaintRow, effectiveAIResult, hc] using this
  · intro hai huser
    rw [hrow]
    cases hs : ai.severity with
    | none => simpa [newComplaintRow, effectiveAIResult, hs] using huser
    | some s =>
        have := hai s hs
        simpa [newComplaintRow, effectiveAIResult, hs] using this

/-- Witness for the amended C3 at a concrete submission: a classifier
result within the enumerations is persisted within the enumerations. -/
theorem create_complaint_ai_passthrough_witness :
    ∃ db' row,
      create_complaint ⟨[], [], [], []⟩
          ⟨"Title", "Desc", "Other", "Low", "Loc", none⟩ "u1"
          (some ⟨some "Sanitation", some "High", some "sum", some []⟩)
          none "c1" 0 true false
        = Except.ok (db', row) ∧
      row.category ∈ COMPLAINT_CATEGORIES ∧
      row.severity ∈ SEVERITY_LEVELS := by
  obtain ⟨db', row, hok⟩ : ∃ db' row,
      create_complaint ⟨[], [], [], []⟩
          ⟨"Title", "Desc", "Other", "Low", "Loc", none⟩ "u1"
          (some ⟨some "Sanitation", some "High", some "sum", some []⟩)
          none "c1" 0 true false
        = Except.ok (db', row) := ⟨_, _, rfl⟩
  have h := create_complaint_ai_passthrough ⟨[], [], [], []⟩
    ⟨"Title", "Desc", "Other", "Low", "Loc", none⟩ "u1"
    ⟨some "Sanitation", some "High", some "sum", some []⟩
    none "c1" 0 false db' row hok
  refine ⟨db', row, hok, ?_, ?_⟩
  · refine h.2.2.1 ?_ (by simp [COMPLAINT_CATEGORIES])
    intro c hc
    cases Option.some_inj.mp hc
    simp [COMPLAINT_CATEGORIES]
  · refine h.2.2.2 ?_ (by simp [SEVERITY_LEVELS])
    intro s hs
    cases Option.some_inj.mp hs
    simp [SEVERITY_LEVELS]

/-- `n` successive `resolve_complaint` calls on the same complaint (each
call feeding the store the previous call's result; a rejected call leaves
the store unchanged). -/
def resolveN (complaint_id admin_id note : String) : ℕ → DB → DB
  | 0, db => db
  | n + 1, db =>
      match resolve_complaint db complaint_id admin_id note with
      | Except.ok (db', _) => resolveN complaint_id admin_id note n db'
      | Except.error _ => db

lemma isEmpty_false_iff_length_pos (l : List Complaint) :
    l.isEmpty = false ↔ 0 < l.length := by
  cases l <;> simp

lemma resolve_ok_of_exists (db : DB) (cid admin note : String)
    (h : (db.complaints.filter (fun c => c.id = cid)).isEmpty = false) :
    resolve_complaint db cid admin note = Except.ok
      (⟨db.complaints.map (fun c =>
          if c.id = cid then { c with status := "resolved" } else c),
        db.votes, db.complaint_vectors,
        db.resolution_logs ++ [⟨cid, admin, note⟩]⟩, "resolved") := by
  unfold resolve_complaint
  simp only [h, Bool.false_eq_true, if_false]

lemma filter_length_resolve_map (l : List Complaint) (cid : String) :
    ((l.map (fun c =>
        if c.id = cid then { c with status := "resolved" } else c)).filter
      (fun c => c.id = cid)).length
      = (l.filter (fun c => c.id = cid)).length := by
  induction l with
  | nil => simp
  | cons c t ih =>
      by_cases hc : c.id = cid
      · simp [hc, ih]
      · simp [hc, ih]

lemma status_resolved_after_map (l : List Complaint) (cid : String) :
    ∀ c' ∈ l.map (fun c =>
        if c.id = cid then { c with status := "resolved" } else c),
      c'.id = cid → c'.status = "resolved" := by
  intro c' hmem hid
  obtain ⟨c, hc, rfl⟩ := List.mem_map.mp hmem
  by_cases h : c.id = cid
  · simp [h]
  · rw [if_neg h] at hid
    exact absurd hid h

lemma resolveN_logs_length (cid admin note : String) :
    ∀ (n : ℕ) (db : DB),
      (db.complaints.filter (fun c => c.id = cid)).isEmpty = false →
      (resolveN cid admin note n db).resolution_logs.length
          = db.resolution_logs.length + n ∧
      ((resolveN cid admin note n db).complaints.filter
        (fun c => c.id = cid)).isEmpty = false := by
  intro n
  induction n with
  | zero => intro db h; exact ⟨by simp [resolveN], h⟩
  | succ k ih =>
      intro db h
      unfold resolveN
      rw [resolve_ok_of_exists db cid admin note h]
      simp only
      have hpres : (((db.complaints.map (fun c =>
          if c.id = cid then { c with status := "resolved" } else c)).filter
            (fun c => c.id = cid)).isEmpty) = false := by
        rw [isEmpty_false_iff_length_pos, filter_length_resolve_map]
        rw [isEmpty_false_iff_length_pos] at h
        exact h
      obtain ⟨h1, h2⟩ := ih ⟨db.complaints.map (fun c =>
          if c.id = cid then { c with status := "resolved" } else c),
        db.votes, db.complaint_vectors,
        db.resolution_logs ++ [⟨cid, admin, note⟩]⟩ hpres
      refine ⟨?_, h2⟩
      rw [h1]
      simp only [List.length_append, List.length_cons, List.length_nil]
      omega

/-- C10: resolving an already-resolved complaint does not reject — the
existence check never looks at the current status — and leaves its status
"resolved" (idempotent on status), but each call appends a fresh
resolution-log row, so `n` resolve calls on the same complaint add `n`
rows to the resolution log. -/
theorem resolve_complaint_idempotent_relog (db : DB)
    (cid admin note : String) (c : Complaint) (hc : c ∈ db.complaints)
    (hid : c.id = cid) (_hstat : c.status = "resolved") :
    (∃ db', resolve_complaint db cid admin note
        = Except.ok (db', "resolved") ∧
      (∀ c' ∈ db'.complaints, c'.id = cid → c'.status = "resolved") ∧
      db'.resolution_logs = db.resolution_logs ++ [⟨cid, admin, note⟩]) ∧
    (∀ n, (resolveN cid admin note n db).resolution_logs.length
      = db.resolution_logs.length + n) := by
  have hex : (db.complaints.filter (fun c0 => c0.id = cid)).isEmpty = false := by
    rw [isEmpty_false_iff_length_pos]
    have hmem : c ∈ db.complaints.filter (fun c0 => c0.id = cid) :=
      List.mem_filter.mpr ⟨hc, by simp [hid]⟩
    exact List.length_pos.mpr (List.ne_nil_of_mem hmem)
  refine ⟨⟨_, resolve_ok_of_exists db cid admin note hex, ?_, rfl⟩, ?_⟩
  · exact status_resolved_after_map db.complaints cid
  · intro n
    exact (resolveN_logs_length cid admin note n db hex).1

/-- Witness for C10: re-resolving a store's single already-resolved
complaint succeeds and appends a log row. -/
theorem resolve_complaint_idempotent_relog_witness :
    ∃ db', resolve_complaint
        ⟨[⟨"c1", "u1", "t", "d", "Other", "Low", 0, "loc", "resolved",
            none, none, [], false, none, 0⟩], [], [], []⟩ "c1" "a1" "done"
      = Except.ok (db', "resolved") ∧
    db'.resolution_logs = [⟨"c1", "a1", "done"⟩] := by
  have h := resolve_complaint_idempotent_relog
    ⟨[⟨"c1", "u1", "t", "d", "Other", "Low", 0, "loc", "resolved",
        none, none, [], false, none, 0⟩], [], [], []⟩ "c1" "a1" "done"
    ⟨"c1", "u1", "t", "d", "Other", "Low", 0, "loc", "resolved",
      none, none, [], false, none, 0⟩ (by simp) rfl rfl
  obtain ⟨⟨db', hok, hst, hlogs⟩, -⟩ := h
  exact ⟨db', hok, by simpa using hlogs⟩

lemma find?_update_map (l : List Complaint) (cid : String)
    (g : Complaint → Complaint) (hg : ∀ c, (g c).id = c.id) :
    (l.map (fun c => if c.id = cid then g c else c)).find?
        (fun c => c.id = cid)
      = (l.find? (fun c => c.id = cid)).map g := by
  induction l with
  | nil => simp
  | cons c t ih =>
      by_cases hc : c.id = cid
      · have hgc : (g c).id = cid := by rw [hg c]; exact hc
        simp only [List.map_cons]
        rw [if_pos hc]
        rw [List.find?_cons_of_pos _ (by simp [hgc]),
          List.find?_cons_of_pos _ (by simp [hc])]
        simp
      · simp only [List.map_cons]
        rw [if_neg hc]
        rw [List.find?_cons_of_neg _ (by simp [hc]),
          List.find?_cons_of_neg _ (by simp [hc])]
        exact ih

lemma refresh_votes_eq (db : DB) (cid : String) (now : ℚ) :
    (_refresh_priority db cid now).votes = db.votes := by
  unfold _refresh_priority
  cases hfind : db.complaints.find? (fun c => c.id = cid) <;> simp

lemma refresh_priority_found (db : DB) (cid : String) (now : ℚ)
    (c : Complaint)
    (hfind : db.complaints.find? (fun c0 => c0.id = cid) = some c) :
    (_refresh_priority db cid now).complaints.find? (fun c0 => c0.id = cid)
      = some { c with priority_score := (compute_priority_score c.severity
          (countVotes db cid) (countDuplicates db cid)
          c.created_at c.status now) } := by
  unfold _refresh_priority
  rw [hfind]
  simp only
  rw [find?_update_map db.complaints cid
    (fun c2 => { c2 with priority_score := (compute_priority_score c.severity
      (countVotes db cid) (countDuplicates db cid)
      c.created_at c.status now) }) (fun c0 => rfl), hfind]
  rfl

lemma countVotes_append_self (db : DB) (cid uid : String) :
    countVotes ⟨db.complaints, db.votes ++ [⟨cid, uid⟩],
      db.complaint_vectors, db.resolution_logs⟩ cid
      = countVotes db cid + 1 := by
  unfold countVotes
  simp [List.filter_append]

/-- C5: `vote_on_complaint` rejects with HTTP 409 when the (user,
complaint) pair already voted (inserting nothing); rejects with HTTP 404
when the pair has not voted and the complaint does not exist (inserting
nothing); otherwise it records exactly one new vote, refreshes the
complaint's priority from the new counts, and returns the updated vote
count — after which a second attempt by the same pair gets 409 and the
count stays at its incremented value (1 after a first vote on a
previously unvoted complaint). -/
theorem vote_on_complaint_spec (db : DB) (cid uid : String) (now : ℚ) :
    ((db.votes.filter (fun v =>
        v.complaint_id = cid ∧ v.user_id = uid)).isEmpty = false →
      vote_on_complaint db cid uid now = Except.error 409) ∧
    ((db.votes.filter (fun v =>
        v.complaint_id = cid ∧ v.user_id = uid)).isEmpty = true →
      (db.complaints.filter (fun c => c.id = cid)).isEmpty = true →
      vote_on_complaint db cid uid now = Except.error 404) ∧
    ((db.votes.filter (fun v =>
        v.complaint_id = cid ∧ v.user_id = uid)).isEmpty = true →
      (db.complaints.filter (fun c => c.id = cid)).isEmpty = false →
      ∃ db2, vote_on_complaint db cid uid now
          = Except.ok (db2, countVotes db cid + 1) ∧
        db2.votes = db.votes ++ [⟨cid, uid⟩] ∧
        countVotes db2 cid = countVotes db cid + 1 ∧
        vote_on_complaint db2 cid uid now = Except.error 409 ∧
        (∀ c, db.complaints.find? (fun c0 => c0.id = cid) = some c →
          db2.complaints.find? (fun c0 => c0.id = cid) = some
            { c with priority_score := (compute_priority_score c.severity
                (countVotes db cid + 1) (countDuplicates db cid)
                c.created_at c.status now) })) := by
  refine ⟨?_, ?_, ?_⟩
  · intro h
    unfold vote_on_complaint
    rw [h]
    simp
  · intro h1 h2
    unfold vote_on_complaint
    rw [h1, h2]
    simp
  · intro h1 h2
    have hvotes2 : (_refresh_priority
        ⟨db.complaints, db.votes ++ [⟨cid, uid⟩], db.complaint_vectors,
          db.resolution_logs⟩ cid now).votes = db.votes ++ [⟨cid, uid⟩] :=
      refresh_votes_eq _ cid now
    have hcount2 : countVotes (_refresh_priority
        ⟨db.complaints, db.votes ++ [⟨cid, uid⟩], db.complaint_vectors,
          db.resolution_logs⟩ cid now) cid = countVotes db cid + 1 := by
      unfold countVotes
      rw [hvotes2]
      have := countVotes_append_self db cid uid
      unfold countVotes at this
      exact this
    refine ⟨_, ?_, hvotes2, hcount2, ?_, ?_⟩
    · unfold vote_on_complaint
      rw [h1, h2]
      simp only [Bool.not_true, Bool.false_eq_true, if_false]
      rw [hcount2]
    · unfold vote_on_complaint
      have : ((_refresh_priority
          ⟨db.complaints, db.votes ++ [⟨cid, uid⟩], db.complaint_vectors,
            db.resolution_logs⟩ cid now).votes.filter (fun v =>
          v.complaint_id = cid ∧ v.user_id = uid)).isEmpty = false := by
        rw [hvotes2]
        simp [List.filter_append]
      rw [this]
      simp
    · intro c hfind
      have hfind1 : (⟨db.complaints, db.votes ++ [⟨cid, uid⟩],
          db.complaint_vectors, db.resolution_logs⟩ : DB).complaints.find?
            (fun c0 => c0.id = cid) = some c := hfind
      have := refresh_priority_found ⟨db.complaints,
        db.votes ++ [⟨cid, uid⟩], db.complaint_vectors,
        db.resolution_logs⟩ cid now c hfind1
      rw [countVotes_append_self db cid uid] at this
      exact this

/-- Witness for C5: a first vote on a store's single (unvoted) complaint
succeeds with vote count 1; the same pair's second attempt gets HTTP 409
and the count stays 1. -/
theorem vote_on_complaint_spec_witness :
    ∃ db2, vote_on_complaint
        ⟨[⟨"c1", "u1", "t", "d", "Other", "Low", 0, "loc", "pending",
            none, none, [], false, none, 0⟩], [], [], []⟩ "c1" "u2" 0
        = Except.ok (db2, 1) ∧
      countVotes db2 "c1" = 1 ∧
      vote_on_complaint db2 "c1" "u2" 0 = Except.error 409 := by
  have h := (vote_on_complaint_spec
    ⟨[⟨"c1", "u1", "t", "d", "Other", "Low", 0, "loc", "pending",
        none, none, [], false, none, 0⟩], [], [], []⟩ "c1" "u2" 0).2.2
    (by simp) (by simp)
  obtain ⟨db2, hok, hv, hc, h409, hf⟩ := h
  exact ⟨db2, hok, hc, h409⟩

lemma round2_add_three_halves (q : ℚ) : round2 (q + 3/2) = round2 q + 3/2 := by
  unfold round2
  have h : (q + 3/2) * 100 = q * 100 + (150 : ℤ) := by push_cast; ring
  rw [h, round_add_int]
  push_cast
  ring

lemma compute_priority_dup_succ (severity : String) (votes dups : ℕ)
    (created : ℚ) (status : String) (now : ℚ) :
    compute_priority_score severity votes (dups + 1) created status now
      = compute_priority_score severity votes dups created status now
        + 3/2 := by
  show round2 ((SEVERITY_WEIGHTS severity).getD 1
      + (votes : ℚ) * VOTE_MULTIPLIER
      + ((dups + 1 : ℕ) : ℚ) * DUPLICATE_MULTIPLIER
      + (if status ≠ "resolved" then
          min ((now - created) / 86400 * TIME_DECAY_PER_DAY) TIME_DECAY_CAP
        else 0))
    = round2 ((SEVERITY_WEIGHTS severity).getD 1
      + (votes : ℚ) * VOTE_MULTIPLIER
      + ((dups : ℕ) : ℚ) * DUPLICATE_MULTIPLIER
      + (if status ≠ "resolved" then
          min ((now - created) / 86400 * TIME_DECAY_PER_DAY) TIME_DECAY_CAP
        else 0)) + 3/2
  rw [show (SEVERITY_WEIGHTS severity).getD 1
      + (votes : ℚ) * VOTE_MULTIPLIER
      + ((dups + 1 : ℕ) : ℚ) * DUPLICATE_MULTIPLIER
      + (if status ≠ "resolved" then
          min ((now - created) / 86400 * TIME_DECAY_PER_DAY) TIME_DECAY_CAP
        else 0)
    = ((SEVERITY_WEIGHTS severity).getD 1
      + (votes : ℚ) * VOTE_MULTIPLIER
      + ((dups : ℕ) : ℚ) * DUPLICATE_MULTIPLIER
      + (if status ≠ "resolved" then
          min ((now - created) / 86400 * TIME_DECAY_PER_DAY) TIME_DECAY_CAP
        else 0)) + 3/2 by
    unfold DUPLICATE_MULTIPLIER
    push_cast
    ring]
  exact round2_add_three_halves _

lemma round2_intCast (z : ℤ) : round2 (z : ℚ) = z := by
  unfold round2
  rw [show ((z : ℚ) * 100) = ((z * 100 : ℤ) : ℚ) by push_cast; ring,
    round_intCast]
  push_cast
  ring

lemma priority_zero_age (sev : String) (now : ℚ) :
    compute_priority_score sev 0 0 now "pending" now
      = (SEVERITY_WEIGHTS sev).getD 1 := by
  show round2 ((SEVERITY_WEIGHTS sev).getD 1
      + ((0 : ℕ) : ℚ) * VOTE_MULTIPLIER
      + ((0 : ℕ) : ℚ) * DUPLICATE_MULTIPLIER
      + (if ("pending" : String) ≠ "resolved" then
          min ((now - now) / 86400 * TIME_DECAY_PER_DAY) TIME_DECAY_CAP
        else 0))
    = (SEVERITY_WEIGHTS sev).getD 1
  have hdec : (if ("pending" : String) ≠ "resolved" then
      min ((now - now) / 86400 * TIME_DECAY_PER_DAY) TIME_DECAY_CAP
    else 0) = 0 := by
    rw [if_pos (by decide)]
    norm_num [TIME_DECAY_PER_DAY, TIME_DECAY_CAP]
  rw [hdec]
  unfold SEVERITY_WEIGHTS
  by_cases hL : sev = "Low" <;> by_cases hM : sev = "Medium" <;>
    by_cases hH : sev = "High" <;>
      simp [hL, hM, hH] <;>
        first
          | simpa using round2_intCast 1
          | simpa using round2_intCast 5
          | simpa using round2_intCast 10

lemma find?_append_some (l1 l2 : List Complaint) (p : Complaint → Bool)
    (c : Complaint) (h : l1.find? p = some c) :
    (l1 ++ l2).find? p = some c := by
  induction l1 with
  | nil => exact absurd h (by simp)
  | cons a t ih =>
      rw [List.cons_append]
      by_cases ha : p a = true
      · rw [List.find?_cons_of_pos _ ha] at h ⊢
        exact h
      · rw [List.find?_cons_of_neg _ ha] at h ⊢
        exact ih h

lemma filter_dup_append (l : List Complaint) (row : Complaint)
    (pid : String) (h : row.duplicate_of = some pid) :
    ((l ++ [row]).filter (fun c => c.duplicate_of = some pid)).length
      = (l.filter (fun c => c.duplicate_of = some pid)).length + 1 := by
  simp [List.filter_append, h]

lemma duplicateDetection_some (db : DB) (v : List ℝ) (hv : v ≠ [])
    (m : DupMatch) (hdup : find_duplicate v db.complaint_vectors = some m) :
    duplicateDetection db (some v)
      = (true, some m.complaint_id, countDuplicates db m.complaint_id) := by
  unfold duplicateDetection
  have hemb : embTruthy (some v) = true := by
    unfold embTruthy
    simp [hv]
  rw [if_pos hemb]
  simp only [Option.getD_some]
  rw [hdup]

lemma duplicateDetection_none_scan (db : DB) (v : List ℝ) (hv : v ≠ [])
    (hdup : find_duplicate v db.complaint_vectors = none) :
    duplicateDetection db (some v) = (false, none, 0) := by
  unfold duplicateDetection
  have hemb : embTruthy (some v) = true := by
    unfold embTruthy
    simp [hv]
  rw [if_pos hemb]
  simp only [Option.getD_some]
  rw [hdup]

lemma refreshed_parent_after_insert (dbC : List Complaint)
    (dbV : List Vote) (vecs : List VectorRow) (logs : List ResolutionLog)
    (row : Complaint) (pid : String) (now : ℚ) (A : Complaint)
    (hA : dbC.find? (fun c => c.id = pid) = some A)
    (hrowdup : row.duplicate_of = some pid) :
    (_refresh_priority ⟨dbC ++ [row], dbV, vecs, logs⟩ pid
        now).complaints.find? (fun c => c.id = pid)
      = some { A with priority_score := (compute_priority_score A.severity
          (countVotes ⟨dbC, dbV, vecs, logs⟩ pid)
          (countDuplicates ⟨dbC, dbV, vecs, logs⟩ pid + 1)
          A.created_at A.status now) } := by
  have hA2 : (⟨dbC ++ [row], dbV, vecs, logs⟩ : DB).complaints.find?
      (fun c => c.id = pid) = some A := find?_append_some _ _ _ _ hA
  have h := refresh_priority_found ⟨dbC ++ [row], dbV, vecs, logs⟩ pid now
    A hA2
  rw [show countDuplicates (⟨dbC ++ [row], dbV, vecs, logs⟩ : DB) pid
      = countDuplicates (⟨dbC, dbV, vecs, logs⟩ : DB) pid + 1 from by
    unfold countDuplicates
    exact filter_dup_append dbC row pid hrowdup] at h
  exact h

/-- C6: end-to-end over the submission pipeline.  When the scan of the
stored vectors finds no match above the threshold, the persisted row
carries no duplicate flag and no parent reference and its initial score is
exactly the severity weight of its effective severity (vote count 0,
duplicate count 0, zero elapsed time).  When the scan flags the submission
as a duplicate of parent `A`, the persisted row points at `A` and the
pipeline refreshes `A`: `A`'s stored score afterwards equals the formula
at its current votes, status and elapsed time with the duplicate count
raised by the new reference — exactly 1.5 more than the formula's value
before the new duplicate. -/
theorem create_complaint_end_to_end (db : DB) (data : ComplaintCreate)
    (user_id : String) (aiOutcome : Option AIResult) (v : List ℝ)
    (newId : String) (now : ℚ) (vOk : Bool) :
    (find_duplicate v db.complaint_vectors = none → v ≠ [] →
      ∀ db' row, create_complaint db data user_id aiOutcome (some v) newId
          now true vOk = Except.ok (db', row) →
        row.is_duplicate = false ∧ row.duplicate_of = none ∧
        row.priority_score = (SEVERITY_WEIGHTS
          ((effectiveAIResult aiOutcome data).severity.getD
            data.severity)).getD 1) ∧
    (∀ m, find_duplicate v db.complaint_vectors = some m → v ≠ [] →
      m.complaint_id ≠ "" →
      ∀ A, db.complaints.find? (fun c => c.id = m.complaint_id) = some A →
      ∀ db' row, create_complaint db data user_id aiOutcome (some v) newId
          now true vOk = Except.ok (db', row) →
        row.is_duplicate = true ∧
        row.duplicate_of = some m.complaint_id ∧
        db'.complaints.find? (fun c => c.id = m.complaint_id) = some
          { A with priority_score := (compute_priority_score A.severity
              (countVotes db m.complaint_id)
              (countDuplicates db m.complaint_id + 1)
              A.created_at A.status now) } ∧
        compute_priority_score A.severity (countVotes db m.complaint_id)
            (countDuplicates db m.complaint_id + 1) A.created_at A.status
            now
          = compute_priority_score A.severity (countVotes db m.complaint_id)
              (countDuplicates db m.complaint_id) A.created_at A.status now
            + 3/2) := by
  constructor
  · intro hdup hv db' row h
    have hdd := duplicateDetection_none_scan db v hv hdup
    have hrow := create_complaint_row_eq db data user_id aiOutcome (some v)
      newId now vOk db' row h
    refine ⟨?_, ?_, ?_⟩
    · rw [hrow]
      show (duplicateDetection db (some v)).1 = false
      rw [hdd]
    · rw [hrow]
      show (duplicateDetection db (some v)).2.1 = none
      rw [hdd]
    · rw [hrow]
      show compute_priority_score
        ((effectiveAIResult aiOutcome data).severity.getD data.severity) 0
        (duplicateDetection db (some v)).2.2 now "pending" now = _
      rw [hdd]
      exact priority_zero_age _ now
  · intro m hdup hv hpne A hA db' row h
    have hdd := duplicateDetection_some db v hv m hdup
    have hrow := create_complaint_row_eq db data user_id aiOutcome (some v)
      newId now vOk db' row h
    have hrowdup : row.duplicate_of = some m.complaint_id := by
      rw [hrow]
      show (duplicateDetection db (some v)).2.1 = some m.complaint_id
      rw [hdd]
    refine ⟨?_, hrowdup, ?_, ?_⟩
    · rw [hrow]
      show (duplicateDetection db (some v)).1 = true
      rw [hdd]
    · unfold create_complaint at h
      simp only [if_true] at h
      rw [hdd] at h
      simp only at h
      rw [if_neg hpne] at h
      obtain ⟨hdb, -⟩ := Prod.mk.injEq .. ▸ (Except.ok.injEq .. ▸ h)
      rw [← hdb]
      by_cases hvk : (embTruthy (some v) && vOk) = true
      · simp only [hvk, if_true]
        have := refreshed_parent_after_insert db.complaints db.votes
          (db.complaint_vectors ++ [⟨newId, EmbField.parsed v⟩])
          db.resolution_logs
          (newComplaintRow db data user_id aiOutcome (some v) newId now)
          m.complaint_id now A hA (by rw [← hrow]; exact hrowdup)
        exact this
      · simp only [hvk, Bool.false_eq_true, if_false]
        have := refreshed_parent_after_insert db.complaints db.votes
          db.complaint_vectors db.resolution_logs
          (newComplaintRow db data user_id aiOutcome (some v) newId now)
          m.complaint_id now A hA (by rw [← hrow]; exact hrowdup)
        exact this
    · exact compute_priority_dup_succ A.severity
        (countVotes db m.complaint_id) (countDuplicates db m.complaint_id)
        A.created_at A.status now

/-- Witness for C6: submitting against a corpus whose stored vector for
parent "c1" scores 0.851 flags the new row as a duplicate of "c1" and
refreshes the parent's stored score to the formula with one more
duplicate — exactly 1.5 above its pre-duplicate value; submitting against
a corpus whose best score is exactly 0.85 persists the row unflagged with
score equal to the severity weight alone. -/
theorem create_complaint_end_to_end_witness :
    (∃ db' row, create_complaint
        ⟨[⟨"c1", "u1", "t", "d", "Other", "Low", 0, "loc", "pending",
            none, none, [], false, none, 0⟩], [],
          [⟨"c1", EmbField.parsed [(851 : ℝ), 525, 13, 2, 1]⟩], []⟩
        ⟨"Title", "Desc", "Other", "Low", "Loc", none⟩ "u1" none
        (some [(1 : ℝ), 0, 0, 0, 0]) "c2" 0 true false
        = Except.ok (db', row) ∧
      row.is_duplicate = true ∧
      row.duplicate_of = some "c1" ∧
      db'.complaints.find? (fun c => c.id = "c1") = some
        ⟨"c1", "u1", "t", "d", "Other", "Low",
          compute_priority_score "Low" 0 1 0 "pending" 0, "loc", "pending",
          none, none, [], false, none, 0⟩ ∧
      compute_priority_score "Low" 0 1 0 "pending" 0
        = compute_priority_score "Low" 0 0 0 "pending" 0 + 3/2) ∧
    (∃ db' row, create_complaint
        ⟨[], [], [⟨"c1", EmbField.parsed [(17 : ℝ), 10, 3, 1, 1]⟩], []⟩
        ⟨"Title", "Desc", "Other", "Low", "Loc", none⟩ "u1" none
        (some [(1 : ℝ), 0, 0, 0, 0]) "c2" 0 true false
        = Except.ok (db', row) ∧
      row.is_duplicate = false ∧
      row.duplicate_of = none ∧
      row.priority_score = 1) := by
  constructor
  · obtain ⟨db', row, hok⟩ : ∃ db' row, create_complaint
        ⟨[⟨"c1", "u1", "t", "d", "Other", "Low", 0, "loc", "pending",
            none, none, [], false, none, 0⟩], [],
          [⟨"c1", EmbField.parsed [(851 : ℝ), 525, 13, 2, 1]⟩], []⟩
        ⟨"Title", "Desc", "Other", "Low", "Loc", none⟩ "u1" none
        (some [(1 : ℝ), 0, 0, 0, 0]) "c2" 0 true false
        = Except.ok (db', row) := ⟨_, _, rfl⟩
    have h := (create_complaint_end_to_end
      ⟨[⟨"c1", "u1", "t", "d", "Other", "Low", 0, "loc", "pending",
          none, none, [], false, none, 0⟩], [],
        [⟨"c1", EmbField.parsed [(851 : ℝ), 525, 13, 2, 1]⟩], []⟩
      ⟨"Title", "Desc", "Other", "Low", "Loc", none⟩ "u1" none
      [(1 : ℝ), 0, 0, 0, 0] "c2" 0 false).2
      ⟨"c1", 851/1000⟩ find_dup_eval_851 (by simp) (by simp)
      ⟨"c1", "u1", "t", "d", "Other", "Low", 0, "loc", "pending",
        none, none, [], false, none, 0⟩ (by simp) db' row hok
    exact ⟨db', row, hok, h.1, h.2.1, h.2.2.1, h.2.2.2⟩
  · obtain ⟨db', row, hok⟩ : ∃ db' row, create_complaint
        ⟨[], [], [⟨"c1", EmbField.parsed [(17 : ℝ), 10, 3, 1, 1]⟩], []⟩
        ⟨"Title", "Desc", "Other", "Low", "Loc", none⟩ "u1" none
        (some [(1 : ℝ), 0, 0, 0, 0]) "c2" 0 true false
        = Except.ok (db', row) := ⟨_, _, rfl⟩
    have h := (create_complaint_end_to_end
      ⟨[], [], [⟨"c1", EmbField.parsed [(17 : ℝ), 10, 3, 1, 1]⟩], []⟩
      ⟨"Title", "Desc", "Other", "Low", "Loc", none⟩ "u1" none
      [(1 : ℝ), 0, 0, 0, 0] "c2" 0 false).1
      find_dup_eval_85 (by simp) db' row hok
    exact ⟨db', row, hok, h.1, h.2.1, h.2.2⟩
